import Mathlib

/-!
Shallow embedding of the bill-extraction service
(`app/extraction_service.py`, `app/main.py`, `app/config.py`,
`app/models.py`) and proofs about its reconciliation logic.

Modelling conventions:
* JSON values (the untrusted payload produced by `json.loads` on an LLM
  response) are the inductive type `JVal`; objects are association lists
  with distinct keys, as produced by `json.loads`.
* Python floats are modelled as exact rationals (`ℚ`).  IEEE specials
  (`nan`, `inf`) and binary-representation artefacts are outside the
  model; `float(...)` coercion of strings is modelled for plain decimal
  literals with optional sign, fraction and exponent.
* A Python function that can raise is modelled as returning `Option`;
  `none` is the raised exception (all exceptions in the modelled region
  are caught by the callers in the source, so only reachability of the
  failure, not the exception class, matters).
* `round(x, 2)` is modelled as round-half-to-even on `ℚ * 100`, the
  documented semantics of Python `round`.
-/

namespace BillAPI

/-- A JSON value as returned by `json.loads` in the extraction service. -/
inductive JVal where
  | jnull
  | jbool (b : Bool)
  | jnum (q : ℚ)
  | jstr (s : String)
  | jarr (xs : List JVal)
  | jobj (fields : List (String × JVal))
deriving Inhabited

/-- Key lookup in a JSON object, i.e. Python `dict.get(key)` returning
`none` when the key is missing.  `json.loads` produces dicts, so keys
are distinct and first-match lookup is exact. -/
def lookup : List (String × JVal) → String → Option JVal
  | [], _ => none
  | (k, v) :: rest, key => if k = key then some v else lookup rest key

/-- Digits of a decimal literal to a natural number (`none` when empty or
a non-digit occurs). -/
def digitsToNat (cs : List Char) : Option ℕ :=
  if cs.isEmpty then none
  else if cs.all Char.isDigit then
    some (cs.foldl (fun a c => a * 10 + (c.toNat - 48)) 0)
  else none

/-- The mantissa of a decimal string: integer part, optional fractional
part.  At least one digit must be present overall. -/
def parseMantissa (cs : List Char) : Option ℚ :=
  match cs.splitOn '.' with
  | [intPart] => (digitsToNat intPart).map (fun n => (n : ℚ))
  | [intPart, fracPart] =>
    if intPart.isEmpty ∧ fracPart.isEmpty then none
    else if (intPart ++ fracPart).all Char.isDigit ∧ ¬ (intPart ++ fracPart).isEmpty then
      some (((intPart ++ fracPart).foldl (fun a c => a * 10 + (c.toNat - 48)) 0 : ℚ)
            / (10 : ℚ) ^ fracPart.length)
    else none
  | _ => none

/-- Optional exponent suffix after `e`/`E`: signed digit string. -/
def parseExponent (cs : List Char) : Option ℤ :=
  match cs with
  | '+' :: rest => (digitsToNat rest).map (fun n => (n : ℤ))
  | '-' :: rest => (digitsToNat rest).map (fun n => -(n : ℤ))
  | rest => (digitsToNat rest).map (fun n => (n : ℤ))

/-- Python `float(s)` on a string: optional surrounding whitespace,
optional sign, decimal mantissa, optional exponent.  (`nan`/`inf`
literals and digit underscores are outside the rational model and are
treated as unparseable.) -/
def strToRat (s : String) : Option ℚ :=
  let cs := (((s.toList.dropWhile Char.isWhitespace).reverse.dropWhile
      Char.isWhitespace).reverse)
  let signed : Option (ℚ → ℚ) × List Char :=
    match cs with
    | '+' :: rest => (some id, rest)
    | '-' :: rest => (some (fun q => -q), rest)
    | rest => (some id, rest)
  match signed with
  | (some sgn, body) =>
    match body.splitOn 'e' with
    | [mant] =>
      match mant.splitOn 'E' with
      | [m] => (parseMantissa m).map sgn
      | [m, ex] => do
        let mv ← parseMantissa m
        let ev ← parseExponent ex
        some (sgn (mv * (10 : ℚ) ^ ev))
      | _ => none
    | [mant, ex] => do
      let mv ← parseMantissa mant
      let ev ← parseExponent ex
      some (sgn (mv * (10 : ℚ) ^ ev))
    | _ => none
  | (none, _) => none

/-- Python `float(v)` on a JSON value: numbers pass through, booleans
become 0/1, numeric strings are parsed, everything else (`None`, lists,
dicts) raises (`none`). -/
def pyFloat : JVal → Option ℚ
  | .jnum q => some q
  | .jbool b => some (if b then 1 else 0)
  | .jstr s => strToRat s
  | _ => none

/-- The source pattern `float(d[k]) if d.get(k) is not None else None`:
missing key or `null` give an absent value; any other value must coerce
or the whole call raises. -/
def optCoerce : Option JVal → Option (Option ℚ)
  | none => some none
  | some .jnull => some none
  | some v =>
    match pyFloat v with
    | some q => some (some q)
    | none => none

/-- `item_data.get("item_name", "Unknown")` fed to the pydantic `str`
field of `BillItem`: a missing key defaults to `"Unknown"`, a string
passes through, any non-string present value (including `null`) fails
model validation and raises. -/
def coerceName : Option JVal → Option String
  | none => some "Unknown"
  | some (.jstr s) => some s
  | some _ => none

/-- Python truthiness of a JSON value (`if not extracted_data`). -/
def pyTruthy : JVal → Bool
  | .jnull => false
  | .jbool b => b
  | .jnum q => decide (q ≠ 0)
  | .jstr s => decide (s ≠ "")
  | .jarr xs => !xs.isEmpty
  | .jobj fs => !fs.isEmpty

/-- Truthiness of an `Optional` value (`None` is falsy). -/
def optTruthy : Option JVal → Bool
  | none => false
  | some v => pyTruthy v

/-- `for x in v` over a value obtained with `.get(key, [])`, where each
element is then used as a dict.  Lists iterate their elements; empty
dicts and empty strings iterate nothing; any other value either is not
iterable (`TypeError`) or yields string elements on which the body's
`.get` raises (`AttributeError`), so the loop fails as a whole. -/
def iterList : JVal → Option (List JVal)
  | .jarr xs => some xs
  | .jobj [] => some []
  | .jstr "" => some []
  | _ => none

/-- Fallible map over a list, mirroring a Python `for` loop whose body
may raise: the first raised exception aborts the whole loop. -/
def mapMO {α β : Type} (f : α → Option β) : List α → Option (List β)
  | [] => some []
  | a :: l =>
    match f a with
    | none => none
    | some b =>
      match mapMO f l with
      | none => none
      | some bs => some (b :: bs)

/-- Schematic rendering of Python `str(v)` for the page-number field.
No claim depends on the exact text; containers are abbreviated and the
numeric rendering is the rational printer rather than Python's
float/int formatting. -/
def pyStr : JVal → String
  | .jstr s => s
  | .jnull => "None"
  | .jbool b => if b then "True" else "False"
  | .jnum q => toString q
  | .jarr _ => "[...]"
  | .jobj _ => "\x7b...\x7d"

/-- Floor of a rational as an integer (Python `//`-style semantics used
by rounding). -/
def ratFloor (q : ℚ) : ℤ := Int.fdiv q.num q.den

/-- Round a rational to the nearest integer, ties to even — the
documented behaviour of Python `round`. -/
def roundHalfEven (q : ℚ) : ℤ :=
  let f := ratFloor q
  let r := q - (f : ℚ)
  if r < 1 / 2 then f
  else if 1 / 2 < r then f + 1
  else if f % 2 = 0 then f else f + 1

/-- Python `round(x, 2)`. -/
def round2 (q : ℚ) : ℚ := (roundHalfEven (q * 100) : ℚ) / 100

/-- `app/models.py` `BillItem`. -/
structure BillItem where
  item_name : String
  item_amount : ℚ
  item_rate : Option ℚ
  item_quantity : Option ℚ
deriving DecidableEq, Repr

/-- `app/models.py` `PageWiseLineItems`. -/
structure PageWiseLineItems where
  page_no : String
  bill_items : List BillItem
  sub_total : Option ℚ
deriving DecidableEq, Repr

/-- `app/models.py` `ExtractedData`. -/
structure ExtractedData where
  pagewise_line_items : List PageWiseLineItems
  total_item_count : ℕ
  reconciled_amount : ℚ
  actual_bill_total : Option ℚ
  accuracy_percentage : Option ℚ
deriving DecidableEq, Repr

/-- The item branch of `reconcile_amounts` (source lines 304-312):
build one `BillItem` from one raw item entry; any coercion failure
raises. -/
def coerceItem : JVal → Option BillItem
  | .jobj fs =>
    match coerceName (lookup fs "item_name") with
    | none => none
    | some name =>
      match pyFloat ((lookup fs "item_amount").getD (.jnum 0)) with
      | none => none
      | some amount =>
        match optCoerce (lookup fs "item_rate") with
        | none => none
        | some rate =>
          match optCoerce (lookup fs "item_quantity") with
          | none => none
          | some qty => some ⟨name, amount, rate, qty⟩
  | _ => none

/-- The page branch of `reconcile_amounts` (source lines 301-324):
build one `PageWiseLineItems` from one raw page entry. -/
def coercePage : JVal → Option PageWiseLineItems
  | .jobj fs =>
    match iterList ((lookup fs "bill_items").getD (.jarr [])) with
    | none => none
    | some itemsRaw =>
      match mapMO coerceItem itemsRaw with
      | none => none
      | some items =>
        match optCoerce (lookup fs "sub_total") with
        | none => none
        | some st =>
          some ⟨pyStr ((lookup fs "page_no").getD (.jstr "1")), items, st⟩
  | _ => none

/-- Sum of the item amounts of one typed page (the running
`reconciled_amount += bill_item.item_amount` of the source). -/
def pageAmountSum (p : PageWiseLineItems) : ℚ :=
  (p.bill_items.map BillItem.item_amount).sum

/-- Sum of the item amounts over all typed pages. -/
def itemsTotal (ps : List PageWiseLineItems) : ℚ :=
  (ps.map pageAmountSum).sum

/-- Item count over all typed pages (the running `total_items += 1`). -/
def itemsCount (ps : List PageWiseLineItems) : ℕ :=
  (ps.map (fun p => p.bill_items.length)).sum

/-- `BillExtractionService.reconcile_amounts` (source lines 287-342).
`none` is the exception path (caught by `extract_bill_data`). -/
def reconcile_amounts (extracted_data : JVal) : Option ExtractedData :=
  match extracted_data with
  | .jobj top =>
    match iterList ((lookup top "pagewise_line_items").getD (.jarr [])) with
    | none => none
    | some pagesRaw =>
      match mapMO coercePage pagesRaw with
      | none => none
      | some pagewise_items =>
        let reconciled_amount := itemsTotal pagewise_items
        let total_items := itemsCount pagewise_items
        match optCoerce (lookup top "actual_bill_total") with
        | none => none
        | some actual_total =>
          let accuracy : Option ℚ :=
            match actual_total with
            | some t =>
              if 0 < t then
                some (round2 (100 * (1 - |reconciled_amount - t| / t)))
              else none
            | none => none
          some
            { pagewise_line_items := pagewise_items
              total_item_count := total_items
              reconciled_amount := round2 reconciled_amount
              actual_bill_total :=
                match actual_total with
                | some t => if t = 0 then none else some (round2 t)
                | none => none
              accuracy_percentage := accuracy }
  | _ => none

/-- `BillExtractionService.extract_bill_data` (source lines 344-378),
with the outcome of the vision attempt and of the text-only fallback
attempt abstracted as inputs (`none` = the strategy returned `None`).
The source retries with the fallback exactly when the first result is
falsy, returns `None` when the surviving result is falsy, and converts
a reconciliation exception into `None`. -/
def extract_bill_data (vision_result fallback_result : Option JVal) :
    Option ExtractedData :=
  let extracted := if optTruthy vision_result then vision_result else fallback_result
  match extracted with
  | some d => if pyTruthy d then reconcile_amounts d else none
  | none => none

/-- `Config.GPT_MODEL` (`app/config.py` line 33). -/
def GPT_MODEL : String := "gpt-4o"

/-- `Config.GPT_FALLBACK_MODEL` (`app/config.py` line 34). -/
def GPT_FALLBACK_MODEL : String := "gpt-4o-mini"

/-- Which LLM clients are initialized on the service instance. -/
structure ClientState where
  gemini_model : Bool
  openai_client : Bool
deriving DecidableEq, Repr

/-- One completion request issued to a backing LLM tier. -/
inductive CompletionCall where
  | gemini
  | openaiChat (model : String)
deriving DecidableEq, Repr

/-- The sequence of completion calls issued by
`BillExtractionService.fallback_extraction` (source lines 235-285):
no client means no call; with a Gemini client one Gemini call; else
with an OpenAI client one chat call with `GPT_FALLBACK_MODEL`. -/
def fallback_extraction_calls (s : ClientState) : List CompletionCall :=
  if !s.openai_client && !s.gemini_model then []
  else if s.gemini_model then [.gemini]
  else if s.openai_client then [.openaiChat GPT_FALLBACK_MODEL]
  else []

/-- Result of `ocr_service.process_document` as consumed by `main.py`
(only the text matters to the endpoint's control flow). -/
structure OcrResult where
  text : String
deriving DecidableEq, Repr

/-- Outcome of the `/extract-bill-data` endpoint: either an
`HTTPException` raised to the transport layer, or a structured
`BillExtractionResponse`. -/
inductive ApiResult where
  | httpError (status_code : ℕ) (detail : String)
  | response (is_success : Bool) (data : Option ExtractedData) (error : Option String)
deriving DecidableEq, Repr

/-- Whether an endpoint outcome is the structured failure shape
(`is_success=false` response body). -/
def isStructuredFailure : ApiResult → Bool
  | .response false _ _ => true
  | _ => false

/-- The `/extract-bill-data` handler (`app/main.py` lines 72-129) with
the OCR outcome and the two strategy outcomes as inputs.  `HTTPException`
is re-raised by the `except HTTPException: raise` arm; every failure of
the modelled region is converted to `None` before reaching the handler,
so the `except Exception` arm (structured `is_success=false`) is not
reachable from these faults. -/
def extract_bill_data_endpoint (ocr : Option OcrResult)
    (vision_result fallback_result : Option JVal) : ApiResult :=
  match ocr with
  | none => .httpError 400 "Failed to process document. Please check the document URL."
  | some _ =>
    match extract_bill_data vision_result fallback_result with
    | none => .httpError 500 "Failed to extract bill data. Please check your OpenAI API key."
    | some d => .response true (some d) none

/-! ### Raw-payload views

Functions reading the raw payload directly, used to state the spec's
properties about `reconcile_amounts` against its input.  They read only
the fields named in their definitions, so a property stated through them
is by construction independent of every other field of the payload. -/

/-- The value the source reads for an optional numeric field:
`float(d[k]) if d.get(k) is not None else None`, with a failed coercion
collapsed to `none` (under a successful reconciliation no coercion
fails, see `optCoerce_eq_some`). -/
def rawOptNum (o : Option JVal) : Option ℚ :=
  match o with
  | none => none
  | some .jnull => none
  | some v => pyFloat v

/-- The item amount the source reads for one raw item entry:
`float(item_data.get("item_amount", 0))`, with `0` for a value that
fails to coerce (impossible under a successful reconciliation). -/
def rawItemSumItem (v : JVal) : ℚ :=
  match v with
  | .jobj fs => (pyFloat ((lookup fs "item_amount").getD (.jnum 0))).getD 0
  | _ => 0

/-- The raw item entries of one raw page entry. -/
def rawPageItems (v : JVal) : List JVal :=
  match v with
  | .jobj fs => (iterList ((lookup fs "bill_items").getD (.jarr []))).getD []
  | _ => []

/-- Sum of the item amounts of one raw page entry. -/
def rawPageSum (v : JVal) : ℚ := ((rawPageItems v).map rawItemSumItem).sum

/-- Number of item entries of one raw page entry. -/
def rawPageCount (v : JVal) : ℕ := (rawPageItems v).length

/-- The raw page entries of the payload. -/
def rawPages (d : JVal) : List JVal :=
  match d with
  | .jobj top => (iterList ((lookup top "pagewise_line_items").getD (.jarr []))).getD []
  | _ => []

/-- Sum of the `item_amount` values of all items across all pages of the
raw payload.  Reads nothing but `pagewise_line_items`, `bill_items` and
`item_amount`: no `sub_total` and no `actual_bill_total` value can
contribute to it. -/
def rawItemSum (d : JVal) : ℚ := ((rawPages d).map rawPageSum).sum

/-- Number of item entries across all page entries of the raw payload. -/
def rawItemCount (d : JVal) : ℕ := ((rawPages d).map rawPageCount).sum

/-- The payload's stated bill total as the source reads it: `none` when
the key is missing or `null` (or, vacuously under success, when the
value cannot be coerced). -/
def rawActualTotal (d : JVal) : Option ℚ :=
  match d with
  | .jobj top => rawOptNum (lookup top "actual_bill_total")
  | _ => none

/-! ### Uncoercible fields

What it means for a raw payload to carry a field that the source's
coercions reject.  Per the repository's own extraction contract
("Use null for missing values"), `null` for `item_rate`,
`item_quantity`, `sub_total` and `actual_bill_total` denotes absence
and is handled (`... is not None` guards), so "present" below means
present with a non-`null` value for those fields; a present `null`
`item_amount`, by contrast, does reach `float(None)` and is included
in `badAmountField`. -/

/-- An optional numeric field (`item_rate`, `item_quantity`,
`sub_total`, `actual_bill_total`) that is present with a non-`null`
value that `float` rejects. -/
def badOptField (fs : List (String × JVal)) (k : String) : Bool :=
  match lookup fs k with
  | none => false
  | some .jnull => false
  | some v => (pyFloat v).isNone

/-- An `item_amount` that is present but that `float` rejects
(`null` included: the source only defaults a missing key). -/
def badAmountField (fs : List (String × JVal)) : Bool :=
  match lookup fs "item_amount" with
  | none => false
  | some v => (pyFloat v).isNone

/-- A raw item entry with an uncoercible numeric field. -/
def badItem (v : JVal) : Bool :=
  match v with
  | .jobj fs =>
    badAmountField fs || badOptField fs "item_rate" || badOptField fs "item_quantity"
  | _ => false

/-- A raw page entry with an uncoercible numeric field. -/
def badPage (v : JVal) : Bool :=
  match v with
  | .jobj fs => badOptField fs "sub_total" || (rawPageItems (.jobj fs)).any badItem
  | _ => false

/-- A raw payload carrying, at any position `reconcile_amounts` reads a
number from, a field that is present (non-`null` where `null` denotes
absence) but cannot be coerced to a number. -/
def hasBadNumericField (d : JVal) : Bool :=
  match d with
  | .jobj top => badOptField top "actual_bill_total" || (rawPages (.jobj top)).any badPage
  | _ => false

/-! ### Concrete payloads and results used by witnesses -/

/-- One page, one item of 100, an informational subtotal of 999 and a
stated total of 777 that must not enter the reconciled sum. -/
def c1pay : JVal := .jobj
  [("pagewise_line_items", .jarr
    [.jobj [("page_no", .jstr "1"),
            ("bill_items", .jarr
              [.jobj [("item_name", .jstr "A"), ("item_amount", .jnum 100)]]),
            ("sub_total", .jnum 999)]]),
   ("actual_bill_total", .jnum 777)]

/-- Reconciliation result of `c1pay`. -/
def c1res : ExtractedData :=
  { pagewise_line_items := [⟨"1", [⟨"A", 100, none, none⟩], some 999⟩]
    total_item_count := 1
    reconciled_amount := round2 100
    actual_bill_total := some (round2 777)
    accuracy_percentage := some (round2 (100 * (1 - |(100 : ℚ) - 777| / 777))) }

/-- One item of 500 against a stated total of 100: the discrepancy
exceeds the stated total, so the accuracy formula goes negative. -/
def c2pay : JVal := .jobj
  [("pagewise_line_items", .jarr
    [.jobj [("page_no", .jstr "1"),
            ("bill_items", .jarr
              [.jobj [("item_name", .jstr "A"), ("item_amount", .jnum 500)]])]]),
   ("actual_bill_total", .jnum 100)]

/-- Reconciliation result of `c2pay`. -/
def c2res : ExtractedData :=
  { pagewise_line_items := [⟨"1", [⟨"A", 500, none, none⟩], none⟩]
    total_item_count := 1
    reconciled_amount := round2 500
    actual_bill_total := some (round2 100)
    accuracy_percentage := some (round2 (100 * (1 - |(500 : ℚ) - 100| / 100))) }

/-- A payload whose single item has an `item_amount` that is present
but is a list, which `float` rejects. -/
def c3pay : JVal := .jobj
  [("pagewise_line_items", .jarr
    [.jobj [("bill_items", .jarr
      [.jobj [("item_name", .jstr "A"), ("item_amount", .jarr [])]])]])]

/-- A payload whose stated total is present with numeric value 0. -/
def c5pay : JVal := .jobj
  [("pagewise_line_items", .jarr
    [.jobj [("page_no", .jstr "1"),
            ("bill_items", .jarr
              [.jobj [("item_name", .jstr "A"), ("item_amount", .jnum 100)]])]]),
   ("actual_bill_total", .jnum 0)]

/-- Reconciliation result of `c5pay`: the zero stated total comes back
absent, not rounded. -/
def c5res : ExtractedData :=
  { pagewise_line_items := [⟨"1", [⟨"A", 100, none, none⟩], none⟩]
    total_item_count := 1
    reconciled_amount := round2 100
    actual_bill_total := none
    accuracy_percentage := none }

/-- One item of 100 with a nonzero stated total of 120. -/
def c5wpay : JVal := .jobj
  [("pagewise_line_items", .jarr
    [.jobj [("page_no", .jstr "1"),
            ("bill_items", .jarr
              [.jobj [("item_name", .jstr "A"), ("item_amount", .jnum 100)]])]]),
   ("actual_bill_total", .jnum 120)]

/-- Reconciliation result of `c5wpay`. -/
def c5wres : ExtractedData :=
  { pagewise_line_items := [⟨"1", [⟨"A", 100, none, none⟩], none⟩]
    total_item_count := 1
    reconciled_amount := round2 100
    actual_bill_total := some (round2 120)
    accuracy_percentage := some (round2 (100 * (1 - |(100 : ℚ) - 120| / 120))) }

/-- A raw item with `item_rate` present as numeric 0 and
`item_quantity` absent. -/
def c6ifs : List (String × JVal) :=
  [("item_name", .jstr "X"), ("item_amount", .jnum 10), ("item_rate", .jnum 0)]

/-- The `BillItem` built from `c6ifs`. -/
def c6item : BillItem := ⟨"X", 10, some 0, none⟩

/-- A raw page with no `bill_items` and no `sub_total` key. -/
def c6pfs : List (String × JVal) := [("page_no", .jstr "2")]

/-- The `PageWiseLineItems` built from `c6pfs`. -/
def c6page : PageWiseLineItems := ⟨"2", [], none⟩

/-- Two pages with two and one items and no stated total. -/
def c7pay : JVal := .jobj
  [("pagewise_line_items", .jarr
    [.jobj [("page_no", .jstr "1"),
            ("bill_items", .jarr
              [.jobj [("item_name", .jstr "A"), ("item_amount", .jnum 10)],
               .jobj [("item_name", .jstr "B"), ("item_amount", .jnum 20)]])],
     .jobj [("page_no", .jstr "2"),
            ("bill_items", .jarr
              [.jobj [("item_name", .jstr "C"), ("item_amount", .jnum 30)]])]])]

/-- Reconciliation result of `c7pay`. -/
def c7res : ExtractedData :=
  { pagewise_line_items :=
      [⟨"1", [⟨"A", 10, none, none⟩, ⟨"B", 20, none, none⟩], none⟩,
       ⟨"2", [⟨"C", 30, none, none⟩], none⟩]
    total_item_count := 3
    reconciled_amount := round2 60
    actual_bill_total := none
    accuracy_percentage := none }

/-- One item of 40 and a stated total present as numeric 0. -/
def c9pay : JVal := .jobj
  [("pagewise_line_items", .jarr
    [.jobj [("page_no", .jstr "1"),
            ("bill_items", .jarr
              [.jobj [("item_name", .jstr "B"), ("item_amount", .jnum 40)]])]]),
   ("actual_bill_total", .jnum 0)]

/-- Reconciliation result of `c9pay`. -/
def c9res : ExtractedData :=
  { pagewise_line_items := [⟨"1", [⟨"B", 40, none, none⟩], none⟩]
    total_item_count := 1
    reconciled_amount := round2 40
    actual_bill_total := none
    accuracy_percentage := none }

/-- An item whose `item_amount` key is present but maps to `null`. -/
def c10nullpay : JVal := .jobj
  [("pagewise_line_items", .jarr
    [.jobj [("page_no", .jstr "1"),
            ("bill_items", .jarr
              [.jobj [("item_name", .jstr "Consult"), ("item_amount", .jnull)]])]])]

/-- The same item with no `item_amount` key at all. -/
def c10misspay : JVal := .jobj
  [("pagewise_line_items", .jarr
    [.jobj [("page_no", .jstr "1"),
            ("bill_items", .jarr
              [.jobj [("item_name", .jstr "Consult")]])]])]

/-! ### Bridging lemmas -/

theorem optCoerce_eq_some {o : Option JVal} {x : Option ℚ}
    (h : optCoerce o = some x) : rawOptNum o = x := by
  cases o with
  | none => simpa [optCoerce, rawOptNum] using h
  | some v =>
    cases v with
    | jnull => simpa [optCoerce, rawOptNum] using h
    | jarr xs => simp [optCoerce, pyFloat] at h
    | jobj fs => simp [optCoerce, pyFloat] at h
    | jbool b =>
      simp only [optCoerce] at h
      cases hp : pyFloat (.jbool b) <;> rw [hp] at h <;> simp at h
      simp only [rawOptNum]
      rw [hp, h]
    | jnum q =>
      simp only [optCoerce] at h
      cases hp : pyFloat (.jnum q) <;> rw [hp] at h <;> simp at h
      simp only [rawOptNum]
      rw [hp, h]
    | jstr s =>
      simp only [optCoerce] at h
      cases hp : pyFloat (.jstr s) <;> rw [hp] at h <;> simp at h
      simp only [rawOptNum]
      rw [hp, h]

theorem coerceItem_fields {fs : List (String × JVal)} {b : BillItem}
    (h : coerceItem (.jobj fs) = some b) :
    pyFloat ((lookup fs "item_amount").getD (.jnum 0)) = some b.item_amount ∧
    optCoerce (lookup fs "item_rate") = some b.item_rate ∧
    optCoerce (lookup fs "item_quantity") = some b.item_quantity := by
  simp only [coerceItem] at h
  split at h
  · exact absurd h (by simp)
  · split at h
    · exact absurd h (by simp)
    · split at h
      · exact absurd h (by simp)
      · split at h
        · exact absurd h (by simp)
        · obtain rfl : _ = b := Option.some.inj h
          refine ⟨by assumption, by assumption, by assumption⟩

theorem coerceItem_amount {v : JVal} {b : BillItem} (h : coerceItem v = some b) :
    b.item_amount = rawItemSumItem v := by
  match v with
  | .jobj fs =>
    obtain ⟨ha, -, -⟩ := coerceItem_fields h
    simp [rawItemSumItem, ha]
  | .jnull | .jbool _ | .jnum _ | .jstr _ | .jarr _ => simp [coerceItem] at h

theorem mapMO_items {xs : List JVal} {items : List BillItem}
    (h : mapMO coerceItem xs = some items) :
    (items.map BillItem.item_amount).sum = (xs.map rawItemSumItem).sum ∧
    items.length = xs.length := by
  induction xs generalizing items with
  | nil =>
    obtain rfl : _ = items := Option.some.inj h
    simp
  | cons a l ih =>
    simp only [mapMO] at h
    split at h
    · exact absurd h (by simp)
    · rename_i b hb
      split at h
      · exact absurd h (by simp)
      · rename_i bs hbs
        obtain rfl : _ = items := Option.some.inj h
        obtain ⟨hs, hl⟩ := ih hbs
        simp [hs, hl, coerceItem_amount hb]

theorem coercePage_fields {fs : List (String × JVal)} {p : PageWiseLineItems}
    (h : coercePage (.jobj fs) = some p) :
    optCoerce (lookup fs "sub_total") = some p.sub_total ∧
    iterList ((lookup fs "bill_items").getD (.jarr [])) = some (rawPageItems (.jobj fs)) ∧
    mapMO coerceItem (rawPageItems (.jobj fs)) = some p.bill_items := by
  simp only [coercePage] at h
  split at h
  · exact absurd h (by simp)
  · rename_i itemsRaw hiter
    split at h
    · exact absurd h (by simp)
    · rename_i items hitems
      split at h
      · exact absurd h (by simp)
      · rename_i st hst
        obtain rfl : _ = p := Option.some.inj h
        have hraw : rawPageItems (.jobj fs) = itemsRaw := by
          simp [rawPageItems, hiter]
        exact ⟨hst, by simp [hraw, hiter], by simp [hraw, hitems]⟩

theorem coercePage_sum {v : JVal} {p : PageWiseLineItems} (h : coercePage v = some p) :
    pageAmountSum p = rawPageSum v ∧ p.bill_items.length = rawPageCount v := by
  match v with
  | .jobj fs =>
    obtain ⟨-, -, hitems⟩ := coercePage_fields h
    obtain ⟨hs, hl⟩ := mapMO_items hitems
    exact ⟨by simpa [pageAmountSum, rawPageSum] using hs, by simpa [rawPageCount] using hl⟩
  | .jnull | .jbool _ | .jnum _ | .jstr _ | .jarr _ => simp [coercePage] at h

theorem mapMO_pages {ps : List JVal} {pages : List PageWiseLineItems}
    (h : mapMO coercePage ps = some pages) :
    itemsTotal pages = (ps.map rawPageSum).sum ∧
    itemsCount pages = (ps.map rawPageCount).sum := by
  induction ps generalizing pages with
  | nil =>
    obtain rfl : _ = pages := Option.some.inj h
    simp [itemsTotal, itemsCount]
  | cons a l ih =>
    simp only [mapMO] at h
    split at h
    · exact absurd h (by simp)
    · rename_i p hp
      split at h
      · exact absurd h (by simp)
      · rename_i qs hqs
        obtain rfl : _ = pages := Option.some.inj h
        obtain ⟨hs, hc⟩ := ih hqs
        obtain ⟨hps, hpc⟩ := coercePage_sum hp
        simp [itemsTotal, itemsCount, List.map_cons, List.sum_cons] at hs hc ⊢
        constructor
        · rw [← hps, ← hs]
        · rw [← hpc, ← hc]

/-- Inversion of a successful `reconcile_amounts` call: every field of
the result expressed against the raw payload. -/
theorem reconcile_spec {d : JVal} {r : ExtractedData}
    (h : reconcile_amounts d = some r) :
    r.reconciled_amount = round2 (rawItemSum d) ∧
    r.reconciled_amount = round2 (itemsTotal r.pagewise_line_items) ∧
    r.total_item_count = rawItemCount d ∧
    r.total_item_count = itemsCount r.pagewise_line_items ∧
    r.actual_bill_total = (match rawActualTotal d with
      | some t => if t = 0 then none else some (round2 t)
      | none => none) ∧
    r.accuracy_percentage = (match rawActualTotal d with
      | some t => if 0 < t then some (round2 (100 * (1 - |rawItemSum d - t| / t))) else none
      | none => none) := by
  match d with
  | .jobj top =>
    simp only [reconcile_amounts] at h
    split at h
    · exact absurd h (by simp)
    · rename_i pagesRaw hiter
      split at h
      · exact absurd h (by simp)
      · rename_i pages hpages
        split at h
        · exact absurd h (by simp)
        · rename_i t hact
          obtain rfl : _ = r := Option.some.inj h
          have hrawp : rawPages (.jobj top) = pagesRaw := by
            simp [rawPages, hiter]
          obtain ⟨hs, hc⟩ := mapMO_pages hpages
          have hsum : rawItemSum (.jobj top) = itemsTotal pages := by
            simp [rawItemSum, hrawp, hs]
          have hcount : rawItemCount (.jobj top) = itemsCount pages := by
            simp [rawItemCount, hrawp, hc]
          have htot : rawActualTotal (.jobj top) = t := by
            simpa [rawActualTotal] using optCoerce_eq_some hact
          refine ⟨by simp [hsum], by simp, by simp [hcount], by simp, ?_, ?_⟩
          · simp [htot]
          · simp [htot, hsum]
  | .jnull | .jbool _ | .jnum _ | .jstr _ | .jarr _ => simp [reconcile_amounts] at h

theorem mapMO_none {α β : Type} (f : α → Option β) {l : List α} {x : α}
    (hx : x ∈ l) (hfx : f x = none) : mapMO f l = none := by
  induction l with
  | nil => cases hx
  | cons a t ih =>
    simp only [mapMO]
    rcases List.mem_cons.mp hx with rfl | hmem
    · simp [hfx]
    · cases hfa : f a with
      | none => rfl
      | some b => simp [ih hmem]

theorem badOptField_optCoerce {fs : List (String × JVal)} {k : String}
    (h : badOptField fs k = true) : optCoerce (lookup fs k) = none := by
  unfold badOptField at h
  cases hl : lookup fs k with
  | none => rw [hl] at h; simp at h
  | some v =>
    rw [hl] at h
    cases v with
    | jnull => simp at h
    | jbool b => simp only [Option.isNone_iff_eq_none] at h; simp [optCoerce, h]
    | jnum q => simp only [Option.isNone_iff_eq_none] at h; simp [optCoerce, h]
    | jstr s => simp only [Option.isNone_iff_eq_none] at h; simp [optCoerce, h]
    | jarr xs => simp [optCoerce, pyFloat]
    | jobj gs => simp [optCoerce, pyFloat]

theorem badItem_coerceItem {v : JVal} (h : badItem v = true) : coerceItem v = none := by
  cases v with
  | jobj fs =>
    simp only [badItem, Bool.or_eq_true] at h
    simp only [coerceItem]
    cases hn : coerceName (lookup fs "item_name") with
    | none => rfl
    | some name =>
      rcases h with (h | h) | h
      · unfold badAmountField at h
        cases hl : lookup fs "item_amount" with
        | none => rw [hl] at h; simp at h
        | some v' =>
          rw [hl] at h
          simp only [Option.isNone_iff_eq_none] at h
          simp [hl, h]
      · cases ha : pyFloat ((lookup fs "item_amount").getD (.jnum 0)) with
        | none => rfl
        | some amount => simp [ha, badOptField_optCoerce h]
      · cases ha : pyFloat ((lookup fs "item_amount").getD (.jnum 0)) with
        | none => rfl
        | some amount =>
          cases hr : optCoerce (lookup fs "item_rate") with
          | none => simp [ha]
          | some rate => simp [ha, hr, badOptField_optCoerce h]
  | jnull | jbool _ | jnum _ | jstr _ | jarr _ => simp [badItem] at h

theorem badPage_coercePage {v : JVal} (h : badPage v = true) : coercePage v = none := by
  cases v with
  | jobj fs =>
    simp only [badPage, Bool.or_eq_true] at h
    simp only [coercePage]
    cases hiter : iterList ((lookup fs "bill_items").getD (.jarr [])) with
    | none => rfl
    | some itemsRaw =>
      have hraw : rawPageItems (.jobj fs) = itemsRaw := by simp [rawPageItems, hiter]
      rcases h with h | h
      · cases hm : mapMO coerceItem itemsRaw with
        | none => simp [hm]
        | some items => simp [hm, badOptField_optCoerce h]
      · rw [hraw] at h
        obtain ⟨x, hmem, hbad⟩ := List.any_eq_true.mp h
        simp [mapMO_none coerceItem hmem (badItem_coerceItem hbad)]
  | jnull | jbool _ | jnum _ | jstr _ | jarr _ => simp [badPage] at h

theorem hasBad_reconcile {d : JVal} (h : hasBadNumericField d = true) :
    reconcile_amounts d = none := by
  cases d with
  | jobj top =>
    simp only [hasBadNumericField, Bool.or_eq_true] at h
    simp only [reconcile_amounts]
    cases hiter : iterList ((lookup top "pagewise_line_items").getD (.jarr [])) with
    | none => rfl
    | some pagesRaw =>
      have hraw : rawPages (.jobj top) = pagesRaw := by simp [rawPages, hiter]
      rcases h with h | h
      · cases hm : mapMO coercePage pagesRaw with
        | none => simp [hm]
        | some pages => simp [hm, badOptField_optCoerce h]
      · rw [hraw] at h
        obtain ⟨x, hmem, hbad⟩ := List.any_eq_true.mp h
        simp [mapMO_none coercePage hmem (badPage_coercePage hbad)]
  | jnull | jbool _ | jnum _ | jstr _ | jarr _ => simp [hasBadNumericField] at h

theorem hasBad_truthy {d : JVal} (h : hasBadNumericField d = true) :
    pyTruthy d = true := by
  cases d with
  | jobj top =>
    cases top with
    | nil => simp [hasBadNumericField, badOptField, lookup, rawPages, iterList] at h
    | cons a t => simp [pyTruthy]
  | jnull | jbool _ | jnum _ | jstr _ | jarr _ => simp [hasBadNumericField] at h

/-- A truthy payload from the winning strategy goes straight to
reconciliation; the fallback result plays no role. -/
theorem extract_truthy {d : JVal} (fb : Option JVal) (ht : pyTruthy d = true) :
    extract_bill_data (some d) fb = reconcile_amounts d := by
  simp [extract_bill_data, optTruthy, ht]

/-! ### Claims -/

/-- C1: for every raw payload accepted by reconciliation, the
`reconciled_amount` of the returned `ExtractedData` is the sum of the
`item_amount` values of all items across all pages of the payload
(rounded once at finalization, per the spec's finalization rule).
`rawItemSum` reads only `pagewise_line_items`/`bill_items`/`item_amount`,
so no page `sub_total` and no `actual_bill_total` value contributes,
whether or not those fields are present; the second conjunct restates
the sum over the returned pages themselves. -/
theorem c1_reconciled_amount_is_item_sum (d : JVal) (r : ExtractedData)
    (h : reconcile_amounts d = some r) :
    r.reconciled_amount = round2 (rawItemSum d) ∧
    r.reconciled_amount = round2 (itemsTotal r.pagewise_line_items) := by
  obtain ⟨h1, h2, -, -, -, -⟩ := reconcile_spec h
  exact ⟨h1, h2⟩

theorem c1_witness :
    reconcile_amounts c1pay = some c1res ∧
    (c1res.reconciled_amount = round2 (rawItemSum c1pay) ∧
     c1res.reconciled_amount = round2 (itemsTotal c1res.pagewise_line_items)) :=
  ⟨by norm_num +decide [c1pay, c1res, reconcile_amounts, coercePage, coerceItem, lookup,
      iterList, optCoerce, coerceName, pyFloat, pyStr, mapMO, itemsTotal, itemsCount,
      pageAmountSum],
   c1_reconciled_amount_is_item_sum c1pay c1res
     (by norm_num +decide [c1pay, c1res, reconcile_amounts, coercePage, coerceItem, lookup,
        iterList, optCoerce, coerceName, pyFloat, pyStr, mapMO, itemsTotal, itemsCount,
        pageAmountSum])⟩

/-- C2: `accuracy_percentage` is present exactly when the payload's
stated bill total is present and strictly positive, and then equals
`round2 (100 * (1 - |reconciled - stated| / stated))` computed from the
unrounded item sum; the formula is not clamped, so it is negative
whenever the discrepancy exceeds the stated total; otherwise the field
is absent. -/
theorem c2_accuracy_formula (d : JVal) (r : ExtractedData)
    (h : reconcile_amounts d = some r) :
    r.accuracy_percentage =
      (match rawActualTotal d with
       | some t => if 0 < t then some (round2 (100 * (1 - |rawItemSum d - t| / t))) else none
       | none => none) :=
  (reconcile_spec h).2.2.2.2.2

theorem c2_witness :
    reconcile_amounts c2pay = some c2res ∧
    c2res.accuracy_percentage =
      (match rawActualTotal c2pay with
       | some t => if 0 < t then some (round2 (100 * (1 - |rawItemSum c2pay - t| / t))) else none
       | none => none) ∧
    (100 : ℚ) * (1 - |(500 : ℚ) - 100| / 100) < 0 :=
  ⟨by norm_num +decide [c2pay, c2res, reconcile_amounts, coercePage, coerceItem, lookup,
      iterList, optCoerce, coerceName, pyFloat, pyStr, mapMO, itemsTotal, itemsCount,
      pageAmountSum],
   c2_accuracy_formula c2pay c2res
     (by norm_num +decide [c2pay, c2res, reconcile_amounts, coercePage, coerceItem, lookup,
        iterList, optCoerce, coerceName, pyFloat, pyStr, mapMO, itemsTotal, itemsCount,
        pageAmountSum]),
   by norm_num⟩

/-- C3: a field that reconciliation reads as a number (an item's
`item_amount`, `item_rate` or `item_quantity`, a page's `sub_total`, or
the payload's `actual_bill_total`) that is present but cannot be
coerced (`hasBadNumericField`; per the repository's extraction contract
`null` denotes absence for the optional fields and is handled, while a
`null` `item_amount` does count) makes the whole request fail:
`extract_bill_data` returns no result, regardless of the fallback
strategy's outcome — the offending field is never individually
skipped and no partial `ExtractedData` escapes. -/
theorem c3_bad_field_fails_request (d : JVal) (fb : Option JVal)
    (h : hasBadNumericField d = true) :
    extract_bill_data (some d) fb = none := by
  rw [extract_truthy fb (hasBad_truthy h), hasBad_reconcile h]

theorem c3_witness :
    hasBadNumericField c3pay = true ∧ extract_bill_data (some c3pay) none = none :=
  ⟨by decide, c3_bad_field_fails_request c3pay none (by decide)⟩

/-- C4 as stated is false: when acquisition succeeds and both
extraction strategies fail (here: both return `None`), the endpoint
does not return the structured `success=false` response — it raises
`HTTPException(500)` to the transport layer (re-raised by the
`except HTTPException: raise` arm of `main.py`). -/
theorem c4_counterexample :
    extract_bill_data_endpoint (some ⟨""⟩) none none =
      .httpError 500 "Failed to extract bill data. Please check your OpenAI API key." ∧
    isStructuredFailure (extract_bill_data_endpoint (some ⟨""⟩) none none) = false :=
  ⟨rfl, rfl⟩

/-- C4 amended: whenever acquisition succeeds but extraction or
reconciliation fails (`extract_bill_data` returns no result), the
endpoint raises `HTTPException` with status 500 and a human-readable
detail to the transport layer; the structured `success=false` shape is
not produced for these faults. -/
theorem c4_extraction_failure_raises_500 (o : OcrResult)
    (vision fallback : Option JVal)
    (h : extract_bill_data vision fallback = none) :
    extract_bill_data_endpoint (some o) vision fallback =
      .httpError 500 "Failed to extract bill data. Please check your OpenAI API key." ∧
    isStructuredFailure (extract_bill_data_endpoint (some o) vision fallback) = false := by
  simp [extract_bill_data_endpoint, h, isStructuredFailure]

theorem c4_witness :
    extract_bill_data none none = none ∧
    (extract_bill_data_endpoint (some ⟨"ocr text"⟩) none none =
      .httpError 500 "Failed to extract bill data. Please check your OpenAI API key." ∧
     isStructuredFailure (extract_bill_data_endpoint (some ⟨"ocr text"⟩) none none) = false) :=
  ⟨rfl, c4_extraction_failure_raises_500 ⟨"ocr text"⟩ none none rfl⟩

/-- C5 as stated is false at a stated total of exactly 0: the payload's
`actual_bill_total` is present and numeric (0), yet the returned stated
total is absent, not `round(0, 2)` — the falsy-number guard
`if actual_total` drops it. -/
theorem c5_counterexample :
    reconcile_amounts c5pay = some c5res ∧
    rawActualTotal c5pay = some 0 ∧
    c5res.actual_bill_total = none ∧
    c5res.actual_bill_total ≠ some (round2 0) := by
  refine ⟨?_, ?_, rfl, by simp [c5res]⟩
  · norm_num +decide [c5pay, c5res, reconcile_amounts, coercePage, coerceItem, lookup,
      iterList, optCoerce, coerceName, pyFloat, pyStr, mapMO, itemsTotal, itemsCount,
      pageAmountSum]
  · norm_num +decide [c5pay, rawActualTotal, rawOptNum, lookup, pyFloat]

/-- C5 amended: rounding happens exactly once, at finalization — the
returned `reconciled_amount` is the unrounded rational item sum rounded
once to 2 decimals — and whenever the stated bill total is present,
numeric and nonzero it is returned rounded to 2 decimals (a stated
total of exactly 0 is returned as absent instead). -/
theorem c5_round_once_at_finalization (d : JVal) (r : ExtractedData) (t : ℚ)
    (h : reconcile_amounts d = some r) (ht : rawActualTotal d = some t)
    (hnz : t ≠ 0) :
    r.reconciled_amount = round2 (rawItemSum d) ∧
    r.actual_bill_total = some (round2 t) := by
  obtain ⟨h1, -, -, -, h5, -⟩ := reconcile_spec h
  refine ⟨h1, ?_⟩
  rw [h5, ht]
  simp [hnz]

theorem c5_witness :
    reconcile_amounts c5wpay = some c5wres ∧
    rawActualTotal c5wpay = some 120 ∧
    (120 : ℚ) ≠ 0 ∧
    (c5wres.reconciled_amount = round2 (rawItemSum c5wpay) ∧
     c5wres.actual_bill_total = some (round2 120)) :=
  ⟨by norm_num +decide [c5wpay, c5wres, reconcile_amounts, coercePage, coerceItem, lookup,
      iterList, optCoerce, coerceName, pyFloat, pyStr, mapMO, itemsTotal, itemsCount,
      pageAmountSum],
   by norm_num +decide [c5wpay, rawActualTotal, rawOptNum, lookup, pyFloat],
   by norm_num,
   c5_round_once_at_finalization c5wpay c5wres 120
     (by norm_num +decide [c5wpay, c5wres, reconcile_amounts, coercePage, coerceItem, lookup,
        iterList, optCoerce, coerceName, pyFloat, pyStr, mapMO, itemsTotal, itemsCount,
        pageAmountSum])
     (by norm_num +decide [c5wpay, rawActualTotal, rawOptNum, lookup, pyFloat])
     (by norm_num)⟩

/-- C6: in the structures reconciliation builds (and returns), an
absent raw `item_rate`/`item_quantity`/`sub_total` stays absent in the
output, and a present numeric 0 is preserved as 0.0 and never turned
into absence. -/
theorem c6_optional_fields_preserved (ifs pfs : List (String × JVal))
    (b : BillItem) (p : PageWiseLineItems)
    (hb : coerceItem (.jobj ifs) = some b)
    (hp : coercePage (.jobj pfs) = some p) :
    ((lookup ifs "item_rate" = none → b.item_rate = none) ∧
     (lookup ifs "item_rate" = some (.jnum 0) → b.item_rate = some 0)) ∧
    ((lookup ifs "item_quantity" = none → b.item_quantity = none) ∧
     (lookup ifs "item_quantity" = some (.jnum 0) → b.item_quantity = some 0)) ∧
    ((lookup pfs "sub_total" = none → p.sub_total = none) ∧
     (lookup pfs "sub_total" = some (.jnum 0) → p.sub_total = some 0)) := by
  obtain ⟨-, hr, hq⟩ := coerceItem_fields hb
  obtain ⟨hs, -, -⟩ := coercePage_fields hp
  refine ⟨⟨?_, ?_⟩, ⟨?_, ?_⟩, ⟨?_, ?_⟩⟩ <;> intro hl
  · rw [hl] at hr
    simp only [optCoerce, Option.some.injEq] at hr
    exact hr.symm
  · rw [hl] at hr
    simp only [optCoerce, pyFloat, Option.some.injEq] at hr
    exact hr.symm
  · rw [hl] at hq
    simp only [optCoerce, Option.some.injEq] at hq
    exact hq.symm
  · rw [hl] at hq
    simp only [optCoerce, pyFloat, Option.some.injEq] at hq
    exact hq.symm
  · rw [hl] at hs
    simp only [optCoerce, Option.some.injEq] at hs
    exact hs.symm
  · rw [hl] at hs
    simp only [optCoerce, pyFloat, Option.some.injEq] at hs
    exact hs.symm

theorem c6_witness :
    coerceItem (.jobj c6ifs) = some c6item ∧
    coercePage (.jobj c6pfs) = some c6page ∧
    (((lookup c6ifs "item_rate" = none → c6item.item_rate = none) ∧
      (lookup c6ifs "item_rate" = some (.jnum 0) → c6item.item_rate = some 0)) ∧
     ((lookup c6ifs "item_quantity" = none → c6item.item_quantity = none) ∧
      (lookup c6ifs "item_quantity" = some (.jnum 0) → c6item.item_quantity = some 0)) ∧
     ((lookup c6pfs "sub_total" = none → c6page.sub_total = none) ∧
      (lookup c6pfs "sub_total" = some (.jnum 0) → c6page.sub_total = some 0))) :=
  ⟨by norm_num +decide [c6ifs, c6item, coerceItem, lookup, optCoerce, coerceName, pyFloat],
   by norm_num +decide [c6pfs, c6page, coercePage, lookup, optCoerce, iterList, mapMO, pyStr],
   c6_optional_fields_preserved c6ifs c6pfs c6item c6page
     (by norm_num +decide [c6ifs, c6item, coerceItem, lookup, optCoerce, coerceName, pyFloat])
     (by norm_num +decide [c6pfs, c6page, coercePage, lookup, optCoerce, iterList, mapMO,
        pyStr])⟩

/-- C7: the `total_item_count` of the returned `ExtractedData` equals
the number of items across all pages of the output, which equals the
number of item entries across all page entries of the raw payload. -/
theorem c7_total_item_count (d : JVal) (r : ExtractedData)
    (h : reconcile_amounts d = some r) :
    r.total_item_count = itemsCount r.pagewise_line_items ∧
    r.total_item_count = rawItemCount d := by
  obtain ⟨-, -, h3, h4, -, -⟩ := reconcile_spec h
  exact ⟨h4, h3⟩

theorem c7_witness :
    reconcile_amounts c7pay = some c7res ∧
    (c7res.total_item_count = itemsCount c7res.pagewise_line_items ∧
     c7res.total_item_count = rawItemCount c7pay) :=
  ⟨by norm_num +decide [c7pay, c7res, reconcile_amounts, coercePage, coerceItem, lookup,
      iterList, optCoerce, coerceName, pyFloat, pyStr, mapMO, itemsTotal, itemsCount,
      pageAmountSum],
   c7_total_item_count c7pay c7res
     (by norm_num +decide [c7pay, c7res, reconcile_amounts, coercePage, coerceItem, lookup,
        iterList, optCoerce, coerceName, pyFloat, pyStr, mapMO, itemsTotal, itemsCount,
        pageAmountSum])⟩

/-- C8 as stated is false: with only the OpenAI client configured, the
text-only fallback path issues exactly one completion call, to the
cheaper `GPT_FALLBACK_MODEL` ("gpt-4o-mini"); the primary `GPT_MODEL`
("gpt-4o") is never attempted in that path. -/
theorem c8_counterexample :
    fallback_extraction_calls ⟨false, true⟩ = [.openaiChat GPT_FALLBACK_MODEL] ∧
    CompletionCall.openaiChat GPT_MODEL ∉ fallback_extraction_calls ⟨false, true⟩ :=
  ⟨by decide, by decide⟩

/-- C8 amended: the text-only fallback path makes at most one
completion attempt; when only the OpenAI client is configured that
single attempt uses the cheaper fallback model, and the primary model
is not attempted in this path. -/
theorem c8_single_cheap_tier (s : ClientState)
    (ho : s.openai_client = true) (hg : s.gemini_model = false) :
    fallback_extraction_calls s = [.openaiChat GPT_FALLBACK_MODEL] ∧
    CompletionCall.openaiChat GPT_MODEL ∉ fallback_extraction_calls s ∧
    (fallback_extraction_calls s).length ≤ 1 := by
  obtain ⟨g, oc⟩ := s
  cases ho
  cases hg
  refine ⟨rfl, by decide, by decide⟩

theorem c8_witness :
    (⟨false, true⟩ : ClientState).openai_client = true ∧
    (⟨false, true⟩ : ClientState).gemini_model = false ∧
    (fallback_extraction_calls ⟨false, true⟩ = [.openaiChat GPT_FALLBACK_MODEL] ∧
     CompletionCall.openaiChat GPT_MODEL ∉ fallback_extraction_calls ⟨false, true⟩ ∧
     (fallback_extraction_calls ⟨false, true⟩).length ≤ 1) :=
  ⟨rfl, rfl, c8_single_cheap_tier ⟨false, true⟩ rfl rfl⟩

/-- C9: a stated total present and coercing to exactly 0 yields an
output with `actual_bill_total` absent and `accuracy_percentage`
absent — indistinguishable in the output from an absent stated
total. -/
theorem c9_zero_stated_total_dropped (d : JVal) (r : ExtractedData)
    (h : reconcile_amounts d = some r) (ht : rawActualTotal d = some 0) :
    r.actual_bill_total = none ∧ r.accuracy_percentage = none := by
  obtain ⟨-, -, -, -, h5, h6⟩ := reconcile_spec h
  rw [ht] at h5 h6
  simp only [if_pos rfl, lt_self_iff_false, if_false] at h5 h6
  exact ⟨h5, h6⟩

theorem c9_witness :
    reconcile_amounts c9pay = some c9res ∧
    rawActualTotal c9pay = some 0 ∧
    (c9res.actual_bill_total = none ∧ c9res.accuracy_percentage = none) :=
  ⟨by norm_num +decide [c9pay, c9res, reconcile_amounts, coercePage, coerceItem, lookup,
      iterList, optCoerce, coerceName, pyFloat, pyStr, mapMO, itemsTotal, itemsCount,
      pageAmountSum],
   by norm_num +decide [c9pay, rawActualTotal, rawOptNum, lookup, pyFloat],
   c9_zero_stated_total_dropped c9pay c9res
     (by norm_num +decide [c9pay, c9res, reconcile_amounts, coercePage, coerceItem, lookup,
        iterList, optCoerce, coerceName, pyFloat, pyStr, mapMO, itemsTotal, itemsCount,
        pageAmountSum])
     (by norm_num +decide [c9pay, rawActualTotal, rawOptNum, lookup, pyFloat])⟩

/-- C10: an `item_amount` key present but mapping to `null` reaches
`float(None)`, which raises and fails the whole request (whatever the
fallback produced), while an item with no `item_amount` key at all is
silently given amount 0.0 and the request proceeds — the two kinds of
missing amount differ at the public interface. -/
theorem c10_null_vs_missing_amount :
    (∀ fb : Option JVal, extract_bill_data (some c10nullpay) fb = none) ∧
    extract_bill_data (some c10misspay) none =
      some ⟨[⟨"1", [⟨"Consult", 0, none, none⟩], none⟩], 1, round2 0, none, none⟩ := by
  constructor
  · intro fb
    rw [extract_truthy fb (show pyTruthy c10nullpay = true by decide)]
    norm_num +decide [c10nullpay, reconcile_amounts, coercePage, coerceItem, lookup,
      iterList, optCoerce, coerceName, pyFloat, pyStr, mapMO, itemsTotal, itemsCount,
      pageAmountSum]
  · norm_num +decide [c10misspay, extract_bill_data, optTruthy, pyTruthy, reconcile_amounts,
      coercePage, coerceItem, lookup, iterList, optCoerce, coerceName, pyFloat, pyStr,
      mapMO, itemsTotal, itemsCount, pageAmountSum]

theorem c10_witness :
    extract_bill_data (some c10nullpay) none = none ∧
    extract_bill_data (some c10misspay) none =
      some ⟨[⟨"1", [⟨"Consult", 0, none, none⟩], none⟩], 1, round2 0, none, none⟩ :=
  ⟨c10_null_vs_missing_amount.1 none, c10_null_vs_missing_amount.2⟩

end BillAPI
